import Mathlib

set_option maxHeartbeats 1000000

/-!
Verification of the authorization and session lifecycle layer of the
PostgreSQL MCP server (Streamable HTTP transport with optional OAuth).

The embedding below translates the in-memory stores and request handlers of
the server module into pure Lean functions.  Conventions:

* Time is a natural number of milliseconds, as returned by Date.now().
* Byte strings (passwords, secrets compared byte-for-byte) are lists of
  natural numbers, one per byte; the empty list models the empty or missing
  string (both are falsy in JavaScript and the code treats them alike).
* Keyed tables (plain objects and Maps used as dictionaries) are association
  lists on String keys with the lookup/assign/delete operations below.
* Optional request fields (a header or body field that may be absent) are
  Option String.  Where the source branches on JavaScript truthiness of a
  string (so the empty string behaves exactly like an absent value), the
  value none models an absent or empty field and some s models a non-empty
  one; this is noted at each definition it applies to.
* Fresh random identifiers (randomUUID results) are passed in as explicit
  arguments, since the handlers use them as opaque strings.
-/

/-- Lookup in a keyed table, mirroring reading a property of a JS object or
Map.get. -/
def lookupKey {α : Type} : List (String × α) → String → Option α
  | [], _ => none
  | (k, v) :: rest, key => if k = key then some v else lookupKey rest key

/-- Removal of a key, mirroring the JS delete operator or Map.delete. -/
def eraseKey {α : Type} : List (String × α) → String → List (String × α)
  | [], _ => []
  | (k, v) :: rest, key =>
      if k = key then eraseKey rest key else (k, v) :: eraseKey rest key

/-- Assignment into a keyed table, mirroring property assignment or Map.set. -/
def setKey {α : Type} (m : List (String × α)) (key : String) (v : α) :
    List (String × α) :=
  (key, v) :: eraseKey m key

/-- Configuration values read from the environment at startup:
RATE_LIMIT_MAX_ATTEMPTS, RATE_LIMIT_WINDOW_MS and OAUTH_TOKEN_EXPIRES_IN. -/
structure ServerConfig where
  rateLimitMaxAttempts : Nat
  rateLimitWindowMs : Nat
  oauthTokenExpiresIn : Nat
deriving DecidableEq

/-- Default configuration: 5 attempts, a 15 minute window (900000 ms) and a
7 day token lifetime (604800 s). -/
def defaultConfig : ServerConfig := ⟨5, 900000, 604800⟩

/-- One value of the rateLimitState map: attempts so far and the absolute
lockout deadline (0 when not locked). -/
structure RateLimitEntry where
  attempts : Nat
  lockoutUntil : Nat
deriving DecidableEq

/-- The rateLimitState map, keyed by client IP. -/
abbrev RateLimitState := List (String × RateLimitEntry)

/-- Remaining whole seconds of a lockout, rounded up:
Math.ceil((lockoutUntil - now) / 1000). -/
def remainingSeconds (lockoutUntil now : Nat) : Nat :=
  (lockoutUntil - now + 999) / 1000

/-- checkRateLimit: returns an error message when the IP is locked out, and
the (possibly lazily cleaned) state.  Mirrors the source exactly: a live
lockout returns the message; an expired lockout whose attempt count is still
at or above the threshold deletes the entry; otherwise the state is kept. -/
def checkRateLimit (cfg : ServerConfig) (st : RateLimitState) (ip : String)
    (now : Nat) : Option String × RateLimitState :=
  match lookupKey st ip with
  | none => (none, st)
  | some s =>
      if now < s.lockoutUntil then
        (some ("Too many failed attempts. Try again in " ++
          toString (remainingSeconds s.lockoutUntil now) ++ " seconds."), st)
      else if s.lockoutUntil ≤ now ∧ cfg.rateLimitMaxAttempts ≤ s.attempts then
        (none, eraseKey st ip)
      else
        (none, st)

/-- recordFailedAttempt: increments the counter (creating the entry at 1 if
absent), sets the lockout deadline once the threshold is reached, and returns
whether the IP is now locked out together with the updated state. -/
def recordFailedAttempt (cfg : ServerConfig) (st : RateLimitState) (ip : String)
    (now : Nat) : Bool × RateLimitState :=
  let s0 := (lookupKey st ip).getD ⟨0, 0⟩
  let s1 : RateLimitEntry := ⟨s0.attempts + 1, s0.lockoutUntil⟩
  let s2 : RateLimitEntry :=
    if cfg.rateLimitMaxAttempts ≤ s1.attempts then
      ⟨s1.attempts, now + cfg.rateLimitWindowMs⟩
    else s1
  (decide (cfg.rateLimitMaxAttempts ≤ s2.attempts), setKey st ip s2)

/-- clearRateLimit: deletes the entry for an IP (called on successful auth). -/
def clearRateLimit (st : RateLimitState) (ip : String) : RateLimitState :=
  eraseKey st ip

/-- Iterates recordFailedAttempt once per element of the list of failure
times, in order.  This is the shape of N consecutive failed login attempts
from one IP with no intervening success. -/
def recordFailures (cfg : ServerConfig) (st : RateLimitState) (ip : String) :
    List Nat → RateLimitState
  | [] => st
  | t :: ts => recordFailures cfg (recordFailedAttempt cfg st ip t).2 ip ts

/-- Node's crypto.timingSafeEqual on two buffers of equal length: content
equality (the timing behaviour itself is outside the embedding). -/
def timingSafeEqualBytes (a b : List Nat) : Bool := a == b

/-- The length-normalized buffer built in the mismatched-length branch of
safeComparePasswords: Buffer.alloc(len) zero-filled, then the provided bytes
copied in from the start (truncated to len when longer). -/
def padToLength (provided : List Nat) (len : Nat) : List Nat :=
  (provided ++ List.replicate len 0).take len

/-- safeComparePasswords: false when either input is empty; on a length
mismatch it still runs a comparison against the length-normalized buffer and
then returns false; otherwise it returns the timing-safe equality. -/
def safeComparePasswords (provided expected : List Nat) : Bool :=
  if provided = [] ∨ expected = [] then false
  else if provided.length ≠ expected.length then
    let paddedProvided := padToLength provided expected.length
    let _ := timingSafeEqualBytes paddedProvided expected
    false
  else timingSafeEqualBytes provided expected

/-- One value of the authCodes map: the fields stored with an issued
authorization code. -/
structure AuthCodeEntry where
  client_id : String
  redirect_uri : String
  code_challenge : Option String
  code_challenge_method : Option String
  expires : Nat
deriving DecidableEq

/-- The authCodes map, keyed by the code string. -/
abbrev AuthCodes := List (String × AuthCodeEntry)

/-- One value of the oauthClients registry. -/
structure OAuthClient where
  client_id : String
  client_secret : Option String
  redirect_uris : List String
  client_name : Option String
  created_at : Nat
deriving DecidableEq

/-- The oauthClients registry, keyed by client_id. -/
abbrev ClientRegistry := List (String × OAuthClient)

/-- Outcome of POST /oauth/authorize: 429 with the rate-limit message on the
re-rendered form, 401 with an invalid-password message, or a 302 redirect
carrying the issued code. -/
inductive AuthorizeResponse
  | rateLimited (message : String)
  | invalidPassword
  | redirectWithCode (code : String) (location : String)
deriving DecidableEq

/-- Outcome of POST /oauth/token: 200 with the token JSON, 400 with error
invalid_grant, or 400 with error unsupported_grant_type. -/
inductive TokenResponse
  | success (access_token : String) (token_type : String) (expires_in : Nat)
  | invalidGrant
  | unsupportedGrantType
deriving DecidableEq

/-- GET /oauth/authorize when no password is configured (auto-approve): a
fresh code (newCode, the randomUUID result) is stored with client_id,
redirect_uri and a 60 second expiry — and nothing else — and the response
redirects back with the code and the echoed state.  The code_challenge and
code_challenge_method query fields are destructured by the handler but do
not appear in the stored entry. -/
def autoApproveAuthorize (codes : AuthCodes) (newCode : String)
    (client_id redirect_uri : String)
    (code_challenge code_challenge_method : Option String)
    (oauthState : String) (now : Nat) : AuthCodes × String :=
  (setKey codes newCode ⟨client_id, redirect_uri, none, none, now + 60000⟩,
   redirect_uri ++ "?code=" ++ newCode ++ "&state=" ++ oauthState)

/-- POST /oauth/authorize with a configured password (authPassword): check
the rate limit first, then the timing-safe password comparison (recording a
failure on mismatch), and on success clear the rate-limit entry and store a
fresh code carrying the supplied PKCE fields with a 60 second expiry.
Returns the response together with the updated rate-limit state and code
store. -/
def postAuthorize (cfg : ServerConfig) (authPassword : List Nat)
    (rl : RateLimitState) (codes : AuthCodes)
    (redirect_uri oauthState client_id : String)
    (code_challenge code_challenge_method : Option String)
    (password : List Nat) (clientIp : String) (newCode : String) (now : Nat) :
    AuthorizeResponse × RateLimitState × AuthCodes :=
  match checkRateLimit cfg rl clientIp now with
  | (some msg, rlAfter) => (AuthorizeResponse.rateLimited msg, rlAfter, codes)
  | (none, rlAfter) =>
      if safeComparePasswords password authPassword = false then
        (AuthorizeResponse.invalidPassword,
         (recordFailedAttempt cfg rlAfter clientIp now).2, codes)
      else
        (AuthorizeResponse.redirectWithCode newCode
           (redirect_uri ++ "?code=" ++ newCode ++ "&state=" ++ oauthState),
         clearRateLimit rlAfter clientIp,
         setKey codes newCode
           ⟨client_id, redirect_uri, code_challenge, code_challenge_method,
            now + 60000⟩)

/-- POST /oauth/token.  For client_credentials: a truthy (present, non-empty;
modelled as some) client_id not yet in the registry is auto-registered, and
the response always succeeds with a fresh token (freshToken, the randomUUID
result).  For authorization_code: an absent or expired code deletes any stale
entry and fails with invalid_grant; a live code is deleted (single use) and a
fresh token is returned.  Any other grant type fails with
unsupported_grant_type.  Returns the response with the updated client
registry and code store. -/
def postToken (cfg : ServerConfig) (clients : ClientRegistry)
    (codes : AuthCodes) (grant_type : String) (code : String)
    (client_id client_secret : Option String)
    (freshToken : String) (now : Nat) :
    TokenResponse × ClientRegistry × AuthCodes :=
  if grant_type = "client_credentials" then
    let clientsAfter :=
      match client_id with
      | some cid =>
          if (lookupKey clients cid).isNone then
            setKey clients cid
              ⟨cid, client_secret, [], some "Auto-registered Client", now⟩
          else clients
      | none => clients
    (TokenResponse.success freshToken "Bearer" cfg.oauthTokenExpiresIn,
     clientsAfter, codes)
  else if grant_type = "authorization_code" then
    match lookupKey codes code with
    | none => (TokenResponse.invalidGrant, clients, eraseKey codes code)
    | some authCode =>
        if authCode.expires < now then
          (TokenResponse.invalidGrant, clients, eraseKey codes code)
        else
          (TokenResponse.success freshToken "Bearer" cfg.oauthTokenExpiresIn,
           clients, eraseKey codes code)
  else
    (TokenResponse.unsupportedGrantType, clients, codes)

/-- A live protocol transport handle: an opaque identity plus whether its
close() call succeeds (used by the shutdown model). -/
structure Transport where
  tid : Nat
  closeOk : Bool
deriving DecidableEq

/-- The transports session registry, keyed by session id. -/
abbrev SessionRegistry := List (String × Transport)

/-- Outcome of the POST /mcp dispatch: routed to an existing transport, a new
transport created for an initialize request, or a 400 "Bad Request: No valid
session ID" JSON-RPC error. -/
inductive McpPostOutcome
  | routedExisting (t : Transport)
  | createdNew
  | badRequest
deriving DecidableEq

/-- Result of one run of the POST /mcp handler: the dispatch outcome and the
registry as the handler itself leaves it.  A newly created transport is not
in registryAfter: it is registered by the onsessioninitialized callback
(modelled separately) once the transport confirms initialization. -/
structure McpPostStep where
  outcome : McpPostOutcome
  registryAfter : SessionRegistry
deriving DecidableEq

/-- The POST /mcp handler dispatch.  sessionId models the mcp-session-id
header through JS truthiness: none is an absent or empty header, some sid a
non-empty one.  isInit is isInitializeRequest(req.body). -/
def mcpPostHandlerStep (transports : SessionRegistry)
    (sessionId : Option String) (isInit : Bool) : McpPostStep :=
  match sessionId with
  | some sid =>
      match lookupKey transports sid with
      | some t => ⟨McpPostOutcome.routedExisting t, transports⟩
      | none => ⟨McpPostOutcome.badRequest, transports⟩
  | none =>
      if isInit then ⟨McpPostOutcome.createdNew, transports⟩
      else ⟨McpPostOutcome.badRequest, transports⟩

/-- The onsessioninitialized callback of a newly created transport: registers
the transport under the freshly generated session id. -/
def onSessionInitializedCallback (transports : SessionRegistry) (sid : String)
    (t : Transport) : SessionRegistry :=
  setKey transports sid t

/-- Outcome of the bearer-auth middleware: a JSON 401 rejection carrying the
error code, or next() with the accepted opaque token. -/
inductive AuthMiddlewareOutcome
  | reject (status : Nat) (errorCode : String)
  | proceed (token : String)
deriving DecidableEq

/-- String.prototype.startsWith, computed on the character list. -/
def strStartsWith (s pre : String) : Bool :=
  pre.data.isPrefixOf s.data

/-- String.prototype.substring(n) (drop the first n characters), computed on
the character list. -/
def strDrop (s : String) (n : Nat) : String :=
  String.mk (s.data.drop n)

/-- createAuthMiddleware's request handler: a missing header or one not
starting with "Bearer " is rejected 401 with error code "unauthorized"; an
empty token after the prefix is rejected 401 with error code "invalid_token";
any non-empty token passes through. -/
def authMiddleware (authHeader : Option String) : AuthMiddlewareOutcome :=
  match authHeader with
  | none => AuthMiddlewareOutcome.reject 401 "unauthorized"
  | some h =>
      if ¬ strStartsWith h "Bearer " then
        AuthMiddlewareOutcome.reject 401 "unauthorized"
      else
        let token := strDrop h 7
        if token = "" then AuthMiddlewareOutcome.reject 401 "invalid_token"
        else AuthMiddlewareOutcome.proceed token

/-- The shutdown loop over the transports registry: each transport is closed
inside a try/catch; a successful close deletes the entry, a failed close is
logged and the loop continues with the entry left in place. -/
def shutdownTransports : SessionRegistry → SessionRegistry
  | [] => []
  | (sid, t) :: rest =>
      if t.closeOk then shutdownTransports rest
      else (sid, t) :: shutdownTransports rest

/-- Looking up the key just assigned returns the assigned value. -/
theorem lookupKey_setKey_self {α : Type} (m : List (String × α)) (k : String)
    (v : α) : lookupKey (setKey m k v) k = some v := by
  simp [setKey, lookupKey]

/-- Looking up a deleted key returns nothing. -/
theorem lookupKey_eraseKey_self {α : Type} (m : List (String × α))
    (k : String) : lookupKey (eraseKey m k) k = none := by
  induction m with
  | nil => rfl
  | cons p rest ih =>
      obtain ⟨k0, v0⟩ := p
      by_cases h : k0 = k
      · simpa [eraseKey, h] using ih
      · simp [eraseKey, h, lookupKey, ih]

/-- The length-normalized buffer really has the expected length. -/
theorem padToLength_length (p : List Nat) (n : Nat) :
    (padToLength p n).length = n := by
  simp [padToLength]

/-- The shutdown loop keeps exactly the entries whose close failed. -/
theorem shutdownTransports_eq_filter (ts : SessionRegistry) :
    shutdownTransports ts = ts.filter (fun p => !(Transport.closeOk p.2)) := by
  induction ts with
  | nil => rfl
  | cons p rest ih =>
      obtain ⟨sid0, t0⟩ := p
      by_cases h : t0.closeOk
      · simp [shutdownTransports, h, ih, List.filter_cons]
      · simp [shutdownTransports, h, ih, List.filter_cons]

/-- C3: safeComparePasswords returns true exactly when both inputs are
non-empty and byte-for-byte equal; it returns false when either input is
empty; and on a length mismatch (both non-empty) it returns false while the
buffer it compares against is normalized to exactly the expected length. -/
theorem safeComparePasswords_spec (p e : List Nat) :
    (safeComparePasswords p e = true ↔ p ≠ [] ∧ e ≠ [] ∧ p = e)
    ∧ (p = [] ∨ e = [] → safeComparePasswords p e = false)
    ∧ (p ≠ [] → e ≠ [] → p.length ≠ e.length →
        safeComparePasswords p e = false ∧
        (padToLength p e.length).length = e.length) := by
  refine ⟨?_, ?_, ?_⟩
  · by_cases h1 : p = [] ∨ e = []
    · simp only [safeComparePasswords, if_pos h1]
      constructor
      · intro h; exact absurd h (by simp)
      · rintro ⟨hp, he, _⟩
        rcases h1 with h1 | h1
        · exact absurd h1 hp
        · exact absurd h1 he
    · push_neg at h1
      obtain ⟨hp, he⟩ := h1
      by_cases h2 : p.length = e.length
      · simp [safeComparePasswords, hp, he, h2, timingSafeEqualBytes]
      · simp only [safeComparePasswords, if_neg (by tauto), if_pos h2]
        constructor
        · intro h; exact absurd h (by simp)
        · rintro ⟨_, _, rfl⟩; exact absurd rfl h2
  · intro h; simp [safeComparePasswords, h]
  · intro hp he hlen
    refine ⟨?_, padToLength_length p e.length⟩
    simp [safeComparePasswords, hp, he, hlen]

/-- C3 witness: a concrete non-empty pair of mismatched lengths. -/
theorem safeComparePasswords_spec_witness :
    safeComparePasswords [1, 2] [1] = false ∧
    (padToLength [1, 2] ([1] : List Nat).length).length =
      ([1] : List Nat).length :=
  (safeComparePasswords_spec [1, 2] [1]).2.2 (by decide) (by decide) (by decide)

/-- C10: a client_credentials exchange with no client_id at all still
succeeds with a fresh Bearer token and the configured expiry, and leaves the
client registry (and the code store) unchanged. -/
theorem clientCredentials_no_client_id (cfg : ServerConfig)
    (clients : ClientRegistry) (codes : AuthCodes) (code : String)
    (client_secret : Option String) (freshToken : String) (now : Nat) :
    postToken cfg clients codes "client_credentials" code none client_secret
      freshToken now =
      (TokenResponse.success freshToken "Bearer" cfg.oauthTokenExpiresIn,
       clients, codes) := by
  simp [postToken]

/-- C8 counterexample: with the bearer-auth middleware enabled, a request
with no Authorization header is rejected 401 with error code "unauthorized",
not with error code "invalid_request" as claimed. -/
theorem authMiddleware_missing_header_counterexample :
    authMiddleware none = AuthMiddlewareOutcome.reject 401 "unauthorized" ∧
    authMiddleware none ≠ AuthMiddlewareOutcome.reject 401 "invalid_request" := by
  decide

/-- C8 amended: a missing (or non-Bearer) Authorization header is rejected
401 with error code "unauthorized"; an empty Bearer token is rejected 401
with error code "invalid_token"; any non-empty token passes through as an
opaque value. -/
theorem authMiddleware_spec (authHeader : Option String) :
    (authHeader = none →
      authMiddleware authHeader = AuthMiddlewareOutcome.reject 401 "unauthorized")
    ∧ (∀ h, authHeader = some h → strStartsWith h "Bearer " = false →
        authMiddleware authHeader = AuthMiddlewareOutcome.reject 401 "unauthorized")
    ∧ (∀ h, authHeader = some h → strStartsWith h "Bearer " = true →
        strDrop h 7 = "" →
        authMiddleware authHeader = AuthMiddlewareOutcome.reject 401 "invalid_token")
    ∧ (∀ h, authHeader = some h → strStartsWith h "Bearer " = true →
        strDrop h 7 ≠ "" →
        authMiddleware authHeader = AuthMiddlewareOutcome.proceed (strDrop h 7)) := by
  refine ⟨?_, ?_, ?_, ?_⟩
  · rintro rfl; rfl
  · rintro h rfl hpre; simp [authMiddleware, hpre]
  · rintro h rfl hpre htok; simp [authMiddleware, hpre, htok]
  · rintro h rfl hpre htok; simp [authMiddleware, hpre, htok]

/-- C8 amended witness: the three concrete behaviours at explicit headers. -/
theorem authMiddleware_spec_witness :
    authMiddleware (some "Basic xyz") =
      AuthMiddlewareOutcome.reject 401 "unauthorized" ∧
    authMiddleware (some "Bearer ") =
      AuthMiddlewareOutcome.reject 401 "invalid_token" ∧
    authMiddleware (some "Bearer tok123") =
      AuthMiddlewareOutcome.proceed "tok123" :=
  ⟨(authMiddleware_spec (some "Basic xyz")).2.1 "Basic xyz" rfl (by decide),
   (authMiddleware_spec (some "Bearer ")).2.2.1 "Bearer " rfl (by decide) (by decide),
   by
     have hw := (authMiddleware_spec (some "Bearer tok123")).2.2.2 "Bearer tok123"
       rfl (by decide) (by decide)
     simpa using hw⟩

/-- C9 counterexample: a registry holding one transport whose close() throws
is not empty after the shutdown loop — the failed entry stays registered, so
the registry is not cleared when a close fails. -/
theorem shutdown_failed_close_counterexample :
    shutdownTransports [("s1", ⟨1, false⟩)] = [("s1", ⟨1, false⟩)] ∧
    shutdownTransports [("s1", ⟨1, false⟩)] ≠ [] := by
  decide

/-- C9 amended: the shutdown loop is best-effort — it visits every session,
a failed close never aborts it — and afterwards the registry holds exactly
the sessions whose close failed; it is empty only when every close
succeeded. -/
theorem shutdown_best_effort (ts : SessionRegistry) :
    (∀ sid t, (sid, t) ∈ shutdownTransports ts ↔
        (sid, t) ∈ ts ∧ t.closeOk = false)
    ∧ ((∀ p ∈ ts, (Transport.closeOk p.2) = true) →
        shutdownTransports ts = []) := by
  constructor
  · intro sid t
    rw [shutdownTransports_eq_filter, List.mem_filter]
    simp
  · intro hall
    rw [shutdownTransports_eq_filter]
    rw [List.filter_eq_nil_iff]
    intro a ha
    simp [hall a ha]

/-- C9 amended witness: in a mixed registry the failing close survives the
loop; an all-success registry is emptied. -/
theorem shutdown_best_effort_witness :
    (("s2", (⟨2, false⟩ : Transport)) ∈
        shutdownTransports [("s1", ⟨1, true⟩), ("s2", ⟨2, false⟩)] ↔
      ("s2", (⟨2, false⟩ : Transport)) ∈
        ([("s1", ⟨1, true⟩), ("s2", ⟨2, false⟩)] : SessionRegistry) ∧
      (⟨2, false⟩ : Transport).closeOk = false) ∧
    shutdownTransports [("s3", ⟨3, true⟩)] = [] :=
  ⟨(shutdown_best_effort [("s1", ⟨1, true⟩), ("s2", ⟨2, false⟩)]).1 "s2" ⟨2, false⟩,
   (shutdown_best_effort [("s3", ⟨3, true⟩)]).2 (by decide)⟩

/-- C7: the POST /mcp handler dispatches in exactly three ways — a known
session id routes to that session's transport; an absent session id with a
valid initialize body creates a new transport, which is entered into the
registry only by its onsessioninitialized callback; every other case is a
400 "no valid session" error.  In all three cases the handler itself leaves
the registry unchanged, so no session is created on the 400 path. -/
theorem mcpPost_dispatch_trichotomy (transports : SessionRegistry)
    (sessionId : Option String) (isInit : Bool) :
    (∀ sid t, sessionId = some sid → lookupKey transports sid = some t →
        mcpPostHandlerStep transports sessionId isInit =
          ⟨McpPostOutcome.routedExisting t, transports⟩)
    ∧ (sessionId = none → isInit = true →
        mcpPostHandlerStep transports sessionId isInit =
          ⟨McpPostOutcome.createdNew, transports⟩)
    ∧ ((∀ sid, sessionId = some sid → lookupKey transports sid = none) →
        (sessionId = none → isInit = false) →
        mcpPostHandlerStep transports sessionId isInit =
          ⟨McpPostOutcome.badRequest, transports⟩)
    ∧ (∀ sid t,
        lookupKey (onSessionInitializedCallback transports sid t) sid = some t) := by
  refine ⟨?_, ?_, ?_, ?_⟩
  · rintro sid t rfl hl; simp [mcpPostHandlerStep, hl]
  · rintro rfl hinit; simp [mcpPostHandlerStep, hinit]
  · intro hunknown hnoinit
    cases sessionId with
    | some sid => simp [mcpPostHandlerStep, hunknown sid rfl]
    | none => simp [mcpPostHandlerStep, hnoinit rfl]
  · intro sid t
    exact lookupKey_setKey_self transports sid t

/-- C7 witness: a concrete registry — resumption of a registered id, session
creation on an initialize body without an id, 400 on an unknown id, and the
initialization callback registering the fresh id. -/
theorem mcpPost_dispatch_trichotomy_witness :
    mcpPostHandlerStep [("s1", ⟨7, true⟩)] (some "s1") false =
      ⟨McpPostOutcome.routedExisting ⟨7, true⟩, [("s1", ⟨7, true⟩)]⟩ ∧
    mcpPostHandlerStep [("s1", ⟨7, true⟩)] none true =
      ⟨McpPostOutcome.createdNew, [("s1", ⟨7, true⟩)]⟩ ∧
    mcpPostHandlerStep [("s1", ⟨7, true⟩)] (some "s2") true =
      ⟨McpPostOutcome.badRequest, [("s1", ⟨7, true⟩)]⟩ ∧
    lookupKey (onSessionInitializedCallback [("s1", ⟨7, true⟩)] "s9" ⟨9, true⟩)
      "s9" = some ⟨9, true⟩ :=
  ⟨(mcpPost_dispatch_trichotomy [("s1", ⟨7, true⟩)] (some "s1") false).1
      "s1" ⟨7, true⟩ rfl (by decide),
   (mcpPost_dispatch_trichotomy [("s1", ⟨7, true⟩)] none true).2.1 rfl rfl,
   (mcpPost_dispatch_trichotomy [("s1", ⟨7, true⟩)] (some "s2") true).2.2.1
      (by intro sid h; cases h; decide) (by intro h; cases h),
   (mcpPost_dispatch_trichotomy [("s1", ⟨7, true⟩)] none true).2.2.2
      "s9" ⟨9, true⟩⟩

/-- C1: an authorization code present and unexpired at the first exchange is
consumed by it — the exchange succeeds with a fresh Bearer token, the store
entry is deleted, and a second exchange with the same code (at any later
time) fails with invalid_grant. -/
theorem authCode_single_use (cfg : ServerConfig) (clients clients2 : ClientRegistry)
    (codes : AuthCodes) (c : String) (e : AuthCodeEntry)
    (tok1 tok2 : String) (now1 now2 : Nat)
    (hlook : lookupKey codes c = some e)
    (hfresh : ¬ e.expires < now1) :
    (postToken cfg clients codes "authorization_code" c none none tok1 now1).1 =
      TokenResponse.success tok1 "Bearer" cfg.oauthTokenExpiresIn
    ∧ lookupKey
        (postToken cfg clients codes "authorization_code" c none none tok1 now1).2.2
        c = none
    ∧ (postToken cfg clients2
        (postToken cfg clients codes "authorization_code" c none none tok1 now1).2.2
        "authorization_code" c none none tok2 now2).1 =
      TokenResponse.invalidGrant := by
  have h1 : postToken cfg clients codes "authorization_code" c none none tok1 now1 =
      (TokenResponse.success tok1 "Bearer" cfg.oauthTokenExpiresIn, clients,
       eraseKey codes c) := by
    simp [postToken, hlook, hfresh]
  refine ⟨by rw [h1], ?_, ?_⟩
  · rw [h1]
    exact lookupKey_eraseKey_self codes c
  · rw [h1]
    simp [postToken, lookupKey_eraseKey_self]

/-- C1 witness: a concrete live code — the first exchange returns a token,
the second returns invalid_grant. -/
theorem authCode_single_use_witness :
    (postToken defaultConfig [] [("codeA", ⟨"cid", "https://cb", none, none, 60000⟩)]
        "authorization_code" "codeA" none none "tok1" 100).1 =
      TokenResponse.success "tok1" "Bearer" defaultConfig.oauthTokenExpiresIn ∧
    (postToken defaultConfig []
        (postToken defaultConfig [] [("codeA", ⟨"cid", "https://cb", none, none, 60000⟩)]
          "authorization_code" "codeA" none none "tok1" 100).2.2
        "authorization_code" "codeA" none none "tok2" 200).1 =
      TokenResponse.invalidGrant := by
  have hw := authCode_single_use defaultConfig [] []
    [("codeA", ⟨"cid", "https://cb", none, none, 60000⟩)] "codeA"
    ⟨"cid", "https://cb", none, none, 60000⟩ "tok1" "tok2" 100 200
    (by decide) (by decide)
  exact ⟨hw.1, hw.2.2⟩

/-- C4 counterexample: a code issued at T = 0 with the 60 second lifetime
(expires = 60000) is exchanged at exactly now = T + lifetime = 60000 and the
exchange still succeeds — it is not rejected with invalid_grant, because the
expiry check uses expires < now, not expires <= now. -/
theorem authCode_boundary_counterexample :
    (postToken defaultConfig []
        [("codeB", ⟨"cid", "https://cb", none, none, 60000⟩)]
        "authorization_code" "codeB" none none "tok" 60000).1 =
      TokenResponse.success "tok" "Bearer" 604800 ∧
    (postToken defaultConfig []
        [("codeB", ⟨"cid", "https://cb", none, none, 60000⟩)]
        "authorization_code" "codeB" none none "tok" 60000).1 ≠
      TokenResponse.invalidGrant := by
  decide

/-- C4 amended: an authorization code issued at time T (expires = T + 60000)
is rejected with invalid_grant when exchanged at any time strictly greater
than T + lifetime; at the exact boundary instant now = T + lifetime the code
is still accepted, since the check treats only expiresAt < now as expired. -/
theorem authCode_expiry_strict (cfg : ServerConfig) (clients : ClientRegistry)
    (codes : AuthCodes) (c : String) (e : AuthCodeEntry) (tIssue : Nat)
    (freshToken : String) (now : Nat)
    (hlook : lookupKey codes c = some e)
    (hexp : e.expires = tIssue + 60000) :
    (tIssue + 60000 < now →
      (postToken cfg clients codes "authorization_code" c none none
        freshToken now).1 = TokenResponse.invalidGrant)
    ∧ (now ≤ tIssue + 60000 →
      (postToken cfg clients codes "authorization_code" c none none
        freshToken now).1 =
        TokenResponse.success freshToken "Bearer" cfg.oauthTokenExpiresIn) := by
  constructor
  · intro hlt
    have hexpired : e.expires < now := by omega
    simp [postToken, hlook, hexpired]
  · intro hle
    have hlive : ¬ e.expires < now := by omega
    simp [postToken, hlook, hlive]

/-- C4 amended witness: the same concrete code rejected one millisecond
after the boundary and accepted at the boundary itself. -/
theorem authCode_expiry_strict_witness :
    (postToken defaultConfig []
        [("codeC", ⟨"cid", "https://cb", none, none, 60000⟩)]
        "authorization_code" "codeC" none none "tok" 60001).1 =
      TokenResponse.invalidGrant ∧
    (postToken defaultConfig []
        [("codeC", ⟨"cid", "https://cb", none, none, 60000⟩)]
        "authorization_code" "codeC" none none "tok" 60000).1 =
      TokenResponse.success "tok" "Bearer" defaultConfig.oauthTokenExpiresIn :=
  ⟨(authCode_expiry_strict defaultConfig []
      [("codeC", ⟨"cid", "https://cb", none, none, 60000⟩)] "codeC"
      ⟨"cid", "https://cb", none, none, 60000⟩ 0 "tok" 60001
      (by decide) (by decide)).1 (by decide),
   (authCode_expiry_strict defaultConfig []
      [("codeC", ⟨"cid", "https://cb", none, none, 60000⟩)] "codeC"
      ⟨"cid", "https://cb", none, none, 60000⟩ 0 "tok" 60000
      (by decide) (by decide)).2 (by decide)⟩

/-- C5: a client_credentials exchange with a truthy client_id that is not in
the registry succeeds with a fresh Bearer token and auto-registers the id
with the supplied secret; a replayed exchange with the same id succeeds
again and leaves the registry — including the stored record and its secret —
literally unchanged, so the id is registered exactly once. -/
theorem clientCredentials_autoRegister_idempotent (cfg : ServerConfig)
    (clients : ClientRegistry) (codes codes2 : AuthCodes) (cid : String)
    (secret secret2 : Option String) (code code2 : String)
    (tok1 tok2 : String) (now1 now2 : Nat)
    (hnew : lookupKey clients cid = none) :
    (postToken cfg clients codes "client_credentials" code (some cid) secret
        tok1 now1).1 =
      TokenResponse.success tok1 "Bearer" cfg.oauthTokenExpiresIn
    ∧ (postToken cfg clients codes "client_credentials" code (some cid) secret
        tok1 now1).2.1 =
      setKey clients cid ⟨cid, secret, [], some "Auto-registered Client", now1⟩
    ∧ lookupKey
        (postToken cfg clients codes "client_credentials" code (some cid) secret
          tok1 now1).2.1 cid =
      some ⟨cid, secret, [], some "Auto-registered Client", now1⟩
    ∧ (postToken cfg
        (postToken cfg clients codes "client_credentials" code (some cid) secret
          tok1 now1).2.1
        codes2 "client_credentials" code2 (some cid) secret2 tok2 now2).1 =
      TokenResponse.success tok2 "Bearer" cfg.oauthTokenExpiresIn
    ∧ (postToken cfg
        (postToken cfg clients codes "client_credentials" code (some cid) secret
          tok1 now1).2.1
        codes2 "client_credentials" code2 (some cid) secret2 tok2 now2).2.1 =
      (postToken cfg clients codes "client_credentials" code (some cid) secret
        tok1 now1).2.1 := by
  have h1 : postToken cfg clients codes "client_credentials" code (some cid)
      secret tok1 now1 =
      (TokenResponse.success tok1 "Bearer" cfg.oauthTokenExpiresIn,
       setKey clients cid ⟨cid, secret, [], some "Auto-registered Client", now1⟩,
       codes) := by
    simp [postToken, hnew]
  have hseen : lookupKey
      (setKey clients cid
        (⟨cid, secret, [], some "Auto-registered Client", now1⟩ : OAuthClient))
      cid =
      some ⟨cid, secret, [], some "Auto-registered Client", now1⟩ :=
    lookupKey_setKey_self clients cid _
  have h2 : postToken cfg
      (setKey clients cid ⟨cid, secret, [], some "Auto-registered Client", now1⟩)
      codes2 "client_credentials" code2 (some cid) secret2 tok2 now2 =
      (TokenResponse.success tok2 "Bearer" cfg.oauthTokenExpiresIn,
       setKey clients cid ⟨cid, secret, [], some "Auto-registered Client", now1⟩,
       codes2) := by
    simp [postToken, hseen]
  rw [h1]
  refine ⟨rfl, rfl, hseen, ?_, ?_⟩
  · rw [h2]
  · rw [h2]

/-- C5 witness: a concrete unseen client id, registered once and replayed. -/
theorem clientCredentials_autoRegister_idempotent_witness :
    (postToken defaultConfig [] [] "client_credentials" "" (some "m2m")
        (some "hunter2") "tokA" 1000).2.1 =
      setKey [] "m2m" ⟨"m2m", some "hunter2", [], some "Auto-registered Client", 1000⟩ ∧
    (postToken defaultConfig
        (postToken defaultConfig [] [] "client_credentials" "" (some "m2m")
          (some "hunter2") "tokA" 1000).2.1
        [] "client_credentials" "" (some "m2m") (some "other") "tokB" 2000).2.1 =
      (postToken defaultConfig [] [] "client_credentials" "" (some "m2m")
        (some "hunter2") "tokA" 1000).2.1 := by
  have hw := clientCredentials_autoRegister_idempotent defaultConfig [] [] []
    "m2m" (some "hunter2") (some "other") "" "" "tokA" "tokB" 1000 2000 rfl
  exact ⟨hw.2.1, hw.2.2.2.2⟩

/-- C6 counterexample: the auto-approve path of GET /oauth/authorize, called
with code_challenge "chal" and method "S256", stores the authorization code
with both PKCE fields unset — the supplied values are not recorded. -/
theorem autoApprove_pkce_counterexample :
    lookupKey
        (autoApproveAuthorize [] "codeY" "cid" "https://cb" (some "chal")
          (some "S256") "st1" 0).1 "codeY" =
      some ⟨"cid", "https://cb", none, none, 60000⟩ ∧
    ((lookupKey
        (autoApproveAuthorize [] "codeY" "cid" "https://cb" (some "chal")
          (some "S256") "st1" 0).1 "codeY").map AuthCodeEntry.code_challenge) ≠
      some (some "chal") := by
  decide

/-- C6 amended: only the successful password-submission path records the
supplied codeChallenge and codeChallengeMethod on the stored entry; the
no-password auto-approve path stores the entry with both PKCE fields unset
even when the request supplies them. -/
theorem pkce_recording_paths (cfg : ServerConfig) (authPassword : List Nat)
    (rl : RateLimitState) (codes codes0 : AuthCodes)
    (redirect_uri oauthState client_id : String)
    (code_challenge code_challenge_method : Option String)
    (clientIp newCode : String) (now : Nat)
    (hrl : lookupKey rl clientIp = none)
    (hpw : authPassword ≠ []) :
    lookupKey
        (postAuthorize cfg authPassword rl codes redirect_uri oauthState
          client_id code_challenge code_challenge_method authPassword clientIp
          newCode now).2.2 newCode =
      some ⟨client_id, redirect_uri, code_challenge, code_challenge_method,
        now + 60000⟩
    ∧ lookupKey
        (autoApproveAuthorize codes0 newCode client_id redirect_uri
          code_challenge code_challenge_method oauthState now).1 newCode =
      some ⟨client_id, redirect_uri, none, none, now + 60000⟩ := by
  constructor
  · have hcheck : checkRateLimit cfg rl clientIp now = (none, rl) := by
      simp [checkRateLimit, hrl]
    have hcmp : safeComparePasswords authPassword authPassword = true := by
      simp [safeComparePasswords, hpw, timingSafeEqualBytes]
    simp [postAuthorize, hcheck, hcmp, lookupKey_setKey_self]
  · exact lookupKey_setKey_self codes0 newCode _

/-- C6 amended witness: the password path stores the concrete PKCE pair, the
auto-approve path drops it. -/
theorem pkce_recording_paths_witness :
    lookupKey
        (postAuthorize defaultConfig [9] [] [] "https://cb" "st1" "cid"
          (some "chal") (some "S256") [9] "1.2.3.4" "codeZ" 0).2.2 "codeZ" =
      some ⟨"cid", "https://cb", some "chal", some "S256", 60000⟩ ∧
    lookupKey
        (autoApproveAuthorize [] "codeZ" "cid" "https://cb" (some "chal")
          (some "S256") "st1" 0).1 "codeZ" =
      some ⟨"cid", "https://cb", none, none, 60000⟩ := by
  have hw := pkce_recording_paths defaultConfig [9] [] [] [] "https://cb" "st1"
    "cid" (some "chal") (some "S256") "1.2.3.4" "codeZ" 0 rfl (by decide)
  exact ⟨by simpa using hw.1, by simpa using hw.2⟩


/-- After a run of failures that exactly reaches the threshold, the entry
records the threshold count and a lockout deadline of the last failure time
plus the window. -/
theorem recordFailures_reaches_lockout (cfg : ServerConfig) (ip : String) :
    ∀ (ts : List Nat) (st : RateLimitState) (a l tN : Nat),
      (lookupKey st ip).getD ⟨0, 0⟩ = ⟨a, l⟩ →
      ts.getLast? = some tN →
      a + ts.length = cfg.rateLimitMaxAttempts →
      lookupKey (recordFailures cfg st ip ts) ip =
        some ⟨cfg.rateLimitMaxAttempts, tN + cfg.rateLimitWindowMs⟩ := by
  intro ts
  induction ts with
  | nil =>
      intro st a l tN hget hlast hsum
      simp at hlast
  | cons t ts ih =>
      intro st a l tN hget hlast hsum
      cases ts with
      | nil =>
          have hlen : a + 1 = cfg.rateLimitMaxAttempts := by
            simpa using hsum
          have htN : tN = t := by
            simpa using hlast.symm
          have hthr : cfg.rateLimitMaxAttempts ≤ a + 1 := by omega
          show lookupKey (recordFailures cfg (recordFailedAttempt cfg st ip t).2 ip []) ip = _
          simp only [recordFailures, recordFailedAttempt, hget]
          simp only [if_pos hthr]
          rw [lookupKey_setKey_self, ← hlen, htN]
      | cons t2 ts2 =>
          have hnotyet : ¬ cfg.rateLimitMaxAttempts ≤ a + 1 := by
            simp [List.length_cons] at hsum
            omega
          have hlast2 : (t2 :: ts2).getLast? = some tN := by
            simpa [List.getLast?_cons_cons] using hlast
          have hstep : (recordFailedAttempt cfg st ip t).2 =
              setKey st ip ⟨a + 1, l⟩ := by
            simp only [recordFailedAttempt, hget]
            simp only [if_neg hnotyet]
          have hget2 : (lookupKey (setKey st ip (⟨a + 1, l⟩ : RateLimitEntry)) ip).getD ⟨0, 0⟩ =
              ⟨a + 1, l⟩ := by
            rw [lookupKey_setKey_self]
            rfl
          have hsum2 : (a + 1) + (t2 :: ts2).length = cfg.rateLimitMaxAttempts := by
            simp [List.length_cons] at hsum ⊢
            omega
          have := ih (setKey st ip ⟨a + 1, l⟩) (a + 1) l tN hget2 hlast2 hsum2
          show lookupKey (recordFailures cfg (recordFailedAttempt cfg st ip t).2 ip (t2 :: ts2)) ip = _
          rw [hstep]
          exact this

/-- C2: starting from no prior rate-limit state, after exactly N consecutive
recordFailedAttempt calls (N the configured threshold) with no intervening
clear, every rate-limit check before the lockout deadline (last failure time
plus the window) returns the lockout message — and POST /oauth/authorize at
such a time returns the 429 rate-limited response before any credential
comparison, whatever password is submitted, the correct one included.  Once
the deadline has passed, the check returns no error again. -/
theorem rateLimit_lockout_after_threshold (cfg : ServerConfig)
    (st : RateLimitState) (ip : String) (ts : List Nat) (tN : Nat)
    (h0 : lookupKey st ip = none)
    (hlast : ts.getLast? = some tN)
    (hlen : ts.length = cfg.rateLimitMaxAttempts) (now : Nat) :
    (now < tN + cfg.rateLimitWindowMs →
      (checkRateLimit cfg (recordFailures cfg st ip ts) ip now).1 =
        some ("Too many failed attempts. Try again in " ++
          toString (remainingSeconds (tN + cfg.rateLimitWindowMs) now) ++
          " seconds.")
      ∧ ∀ (authPassword : List Nat) (codes : AuthCodes)
          (redirect_uri oauthState client_id : String)
          (code_challenge code_challenge_method : Option String)
          (password : List Nat) (newCode : String),
          (postAuthorize cfg authPassword (recordFailures cfg st ip ts) codes
            redirect_uri oauthState client_id code_challenge
            code_challenge_method password ip newCode now).1 =
            AuthorizeResponse.rateLimited
              ("Too many failed attempts. Try again in " ++
                toString (remainingSeconds (tN + cfg.rateLimitWindowMs) now) ++
                " seconds."))
    ∧ (tN + cfg.rateLimitWindowMs ≤ now →
      (checkRateLimit cfg (recordFailures cfg st ip ts) ip now).1 = none) := by
  have hget : (lookupKey st ip).getD ⟨0, 0⟩ = (⟨0, 0⟩ : RateLimitEntry) := by
    rw [h0]; rfl
  have hlook := recordFailures_reaches_lockout cfg ip ts st 0 0 tN hget hlast
    (by simpa using hlen)
  constructor
  · intro hnow
    have hcheck : checkRateLimit cfg (recordFailures cfg st ip ts) ip now =
        (some ("Too many failed attempts. Try again in " ++
          toString (remainingSeconds (tN + cfg.rateLimitWindowMs) now) ++
          " seconds."), recordFailures cfg st ip ts) := by
      simp [checkRateLimit, hlook, hnow]
    refine ⟨by rw [hcheck], ?_⟩
    intro authPassword codes redirect_uri oauthState client_id code_challenge
      code_challenge_method password newCode
    simp [postAuthorize, hcheck]
  · intro hnow
    have hnotlt : ¬ now < tN + cfg.rateLimitWindowMs := by omega
    simp only [checkRateLimit, hlook]
    simp only [if_neg hnotlt]
    split <;> rfl

/-- C2 witness: with the default configuration, exactly five failures from
one IP lock it out; one millisecond later the check returns the lockout
message and the authorize endpoint rate-limits even the correct password;
after the 15 minute window the check passes again. -/
theorem rateLimit_lockout_after_threshold_witness :
    (checkRateLimit defaultConfig
        (recordFailures defaultConfig [] "203.0.113.7" [0, 1, 2, 3, 4])
        "203.0.113.7" 5).1 =
      some ("Too many failed attempts. Try again in " ++
        toString (remainingSeconds (4 + 900000) 5) ++ " seconds.") ∧
    (postAuthorize defaultConfig [9]
        (recordFailures defaultConfig [] "203.0.113.7" [0, 1, 2, 3, 4]) []
        "https://cb" "st1" "cid" none none [9] "203.0.113.7" "codeW" 5).1 =
      AuthorizeResponse.rateLimited
        ("Too many failed attempts. Try again in " ++
          toString (remainingSeconds (4 + 900000) 5) ++ " seconds.") ∧
    (checkRateLimit defaultConfig
        (recordFailures defaultConfig [] "203.0.113.7" [0, 1, 2, 3, 4])
        "203.0.113.7" 900004).1 = none := by
  have hw := rateLimit_lockout_after_threshold defaultConfig [] "203.0.113.7"
    [0, 1, 2, 3, 4] 4 rfl (by decide) (by decide)
  have h1 := (hw 5).1 (by decide)
  have h2 := (hw 900004).2 (by decide)
  exact ⟨h1.1, h1.2 [9] [] "https://cb" "st1" "cid" none none [9] "codeW", h2⟩
